import Mathlib

/-
Verification of the RabbitContextOptions configuration surface of rmqcpp
(src/src/rmq/rmqa/rmqa_rabbitcontextoptions.h).

The repository provides only the header: it declares the class, its data
members, the constant DEFAULT_MESSAGE_PROCESSING_TIMEOUT = 60, and defines
the accessors inline. The bodies of the constructor and of the setters live
in a .cpp file that is not part of the sources, so those bodies are modelled
from the specification (each such definition says so in its doc comment).

Modelling choices:
- rmqt::FieldValue is opaque to this surface; it is modelled as String.
- bdlmt::ThreadPool* (a raw pointer) is modelled as Option Nat, none being
  the null pointer.
- bsl::shared_ptr handles and bsl::function callbacks are opaque handles
  compared for identity only; each is modelled as Option Nat, none being the
  empty/null handle (the default-constructed value).
- bsls::TimeInterval is a (seconds, nanoseconds) pair.
- rmqt::FieldTable (a map from string keys to field values, keys unique) is
  an association list with insert-or-overwrite.
-/

namespace rmqa

/-- Opaque model of rmqt::FieldValue: values are only stored and compared. -/
abbrev FieldValue := String

/-- Model of bdlmt::ThreadPool*: none is the null pointer. -/
abbrev ThreadPoolPtr := Option Nat

/-- Model of rmqt::ErrorCallback: none is the empty (no-op) function object. -/
abbrev ErrorCallback := Option Nat

/-- Model of rmqt::SuccessCallback: none is the empty (no-op) function object. -/
abbrev SuccessCallback := Option Nat

/-- Model of rmqa::ConnectionMonitor::HungMessageCallback. -/
abbrev HungMessageCallback := Option Nat

/-- Model of bsl::shared_ptr to rmqp::MetricPublisher: none is the null handle. -/
abbrev MetricPublisherPtr := Option Nat

/-- Model of bsl::shared_ptr to rmqp::ConsumerTracing: none is the null handle. -/
abbrev ConsumerTracingPtr := Option Nat

/-- Model of bsl::shared_ptr to rmqp::ProducerTracing: none is the null handle. -/
abbrev ProducerTracingPtr := Option Nat

/-- Model of bsls::TimeInterval as a seconds/nanoseconds pair. -/
structure TimeInterval where
  seconds : Int
  nanoseconds : Int
deriving DecidableEq, Repr

/-- Model of rmqt::FieldTable: a string-keyed map with unique keys, kept as
an association list. -/
abbrev FieldTable := List (String × FieldValue)

/-- Lookup of a key in a field table. -/
def lookupField : FieldTable → String → Option FieldValue
  | [], _ => none
  | (k, v) :: rest, name => if k = name then some v else lookupField rest name

/-- Insert-or-overwrite of a key in a field table: an existing entry is
overwritten in place, a new key is appended. -/
def insertField : FieldTable → String → FieldValue → FieldTable
  | [], name, value => [(name, value)]
  | (k, v) :: rest, name, value =>
      if k = name then (k, value) :: rest
      else (k, v) :: insertField rest name value

/-- Key list of a field table. -/
def fieldKeys (t : FieldTable) : List String := t.map Prod.fst

/-- State of BloombergLP::rmqa::RabbitContextOptions: one field per data
member of the class. In the source all members are private except
d_onHungMessage, which is a public data member with no const accessor. -/
structure RabbitContextOptions where
  d_threadpool : ThreadPoolPtr
  d_onError : ErrorCallback
  d_onSuccess : SuccessCallback
  d_onHungMessage : HungMessageCallback
  d_metricPublisher : MetricPublisherPtr
  d_clientProperties : FieldTable
  d_messageProcessingTimeout : TimeInterval
  d_tunables : List String
  d_connectionErrorThreshold : Option TimeInterval
  d_consumerTracing : ConsumerTracingPtr
  d_producerTracing : ProducerTracingPtr
  d_shuffleConnectionEndpoints : Option Bool
deriving DecidableEq, Repr

/-- Constant from the header: static const int DEFAULT_MESSAGE_PROCESSING_TIMEOUT = 60. -/
def DEFAULT_MESSAGE_PROCESSING_TIMEOUT : Int := 60

/-- The five reserved client-property keys (header doc of setClientProperty):
these cannot be overridden. -/
def reservedProperties : List String :=
  ["capabilities", "platform", "product", "version", "connection_name"]

/-- The five default-but-overridable client-property keys (header doc of
setClientProperty). -/
def defaultPropertyKeys : List String :=
  ["task", "pid", "os", "os_version", "os_patch"]

/-- Process/environment data the constructor reads to populate the default
client properties; opaque to this surface. -/
structure EnvInfo where
  taskValue : FieldValue
  pidValue : FieldValue
  osValue : FieldValue
  osVersionValue : FieldValue
  osPatchValue : FieldValue
deriving DecidableEq, Repr

/-- Modelled from the spec: the body of the constructor RabbitContextOptions()
is not in the sources (the header only declares it). Per the spec, the default
state has client properties for exactly the keys task, pid, os, os_version and
os_patch populated from the process/environment, messageProcessingTimeout of
60 seconds (DEFAULT_MESSAGE_PROCESSING_TIMEOUT from the header),
connectionErrorThreshold and shuffleConnectionEndpoints unset, tracing handles
unset, empty tunables, a null threadpool pointer and empty callback and
metric-publisher handles (the library substitutes its own defaults later). -/
def RabbitContextOptions.init (env : EnvInfo) : RabbitContextOptions where
  d_threadpool := none
  d_onError := none
  d_onSuccess := none
  d_onHungMessage := none
  d_metricPublisher := none
  d_clientProperties :=
    [("task", env.taskValue), ("pid", env.pidValue), ("os", env.osValue),
     ("os_version", env.osVersionValue), ("os_patch", env.osPatchValue)]
  d_messageProcessingTimeout := ⟨DEFAULT_MESSAGE_PROCESSING_TIMEOUT, 0⟩
  d_tunables := []
  d_connectionErrorThreshold := none
  d_consumerTracing := none
  d_producerTracing := none
  d_shuffleConnectionEndpoints := none

/-- Accessor from the header: threadpool() returns d_threadpool. -/
def RabbitContextOptions.threadpool (s : RabbitContextOptions) : ThreadPoolPtr :=
  s.d_threadpool

/-- Accessor from the header: metricPublisher() returns d_metricPublisher. -/
def RabbitContextOptions.metricPublisher (s : RabbitContextOptions) : MetricPublisherPtr :=
  s.d_metricPublisher

/-- Accessor from the header: errorCallback() returns d_onError. -/
def RabbitContextOptions.errorCallback (s : RabbitContextOptions) : ErrorCallback :=
  s.d_onError

/-- Accessor from the header: successCallback() returns d_onSuccess. -/
def RabbitContextOptions.successCallback (s : RabbitContextOptions) : SuccessCallback :=
  s.d_onSuccess

/-- Accessor from the header: clientProperties() returns d_clientProperties. -/
def RabbitContextOptions.clientProperties (s : RabbitContextOptions) : FieldTable :=
  s.d_clientProperties

/-- Accessor from the header: messageProcessingTimeout() returns
d_messageProcessingTimeout. -/
def RabbitContextOptions.messageProcessingTimeout (s : RabbitContextOptions) : TimeInterval :=
  s.d_messageProcessingTimeout

/-- Accessor from the header: connectionErrorThreshold() returns
d_connectionErrorThreshold. -/
def RabbitContextOptions.connectionErrorThreshold (s : RabbitContextOptions) : Option TimeInterval :=
  s.d_connectionErrorThreshold

/-- Accessor from the header: tunables() returns d_tunables. -/
def RabbitContextOptions.tunables (s : RabbitContextOptions) : List String :=
  s.d_tunables

/-- Accessor from the header: consumerTracing() returns d_consumerTracing. -/
def RabbitContextOptions.consumerTracing (s : RabbitContextOptions) : ConsumerTracingPtr :=
  s.d_consumerTracing

/-- Accessor from the header: producerTracing() returns d_producerTracing. -/
def RabbitContextOptions.producerTracing (s : RabbitContextOptions) : ProducerTracingPtr :=
  s.d_producerTracing

/-- Accessor from the header: shuffleConnectionEndpoints() returns
d_shuffleConnectionEndpoints. -/
def RabbitContextOptions.shuffleConnectionEndpoints (s : RabbitContextOptions) : Option Bool :=
  s.d_shuffleConnectionEndpoints

/-- Configuration-time error taxonomy of the spec. -/
inductive ConfigError where
  | invalidConfiguration
deriving DecidableEq, Repr

/-- Modelled from the spec: the body of setThreadpool is not in the sources.
Per the spec a null execution resource is an InvalidConfiguration error
reported synchronously at the setter call site; a non-null pointer is stored
as a non-owning reference. -/
def RabbitContextOptions.setThreadpool (s : RabbitContextOptions) (p : ThreadPoolPtr) :
    Except ConfigError RabbitContextOptions :=
  match p with
  | none => Except.error ConfigError.invalidConfiguration
  | some q => Except.ok { s with d_threadpool := some q }

/-- State of the builder after a setThreadpool call: the stored state on
success, the unchanged state when the call is rejected. -/
def RabbitContextOptions.applySetThreadpool (s : RabbitContextOptions) (p : ThreadPoolPtr) :
    RabbitContextOptions :=
  match s.setThreadpool p with
  | Except.ok s2 => s2
  | Except.error _ => s

/-- Modelled from the spec: the body of setMetricPublisher is not in the
sources. It stores the shared handle wholesale, discarding any previous one. -/
def RabbitContextOptions.setMetricPublisher (s : RabbitContextOptions) (m : MetricPublisherPtr) :
    RabbitContextOptions :=
  { s with d_metricPublisher := m }

/-- Modelled from the spec: the body of setErrorCallback is not in the
sources. It stores the callback wholesale. -/
def RabbitContextOptions.setErrorCallback (s : RabbitContextOptions) (cb : ErrorCallback) :
    RabbitContextOptions :=
  { s with d_onError := cb }

/-- Modelled from the spec: the body of setSuccessCallback is not in the
sources. It stores the callback wholesale. -/
def RabbitContextOptions.setSuccessCallback (s : RabbitContextOptions) (cb : SuccessCallback) :
    RabbitContextOptions :=
  { s with d_onSuccess := cb }

/-- Modelled from the spec: the body of setHungMessageCallback is not in the
sources. It stores the callback in the public member d_onHungMessage. -/
def RabbitContextOptions.setHungMessageCallback (s : RabbitContextOptions)
    (cb : HungMessageCallback) : RabbitContextOptions :=
  { s with d_onHungMessage := cb }

/-- Modelled from the spec: the body of setClientProperty is not in the
sources. Per the header doc and the spec, a reserved key (capabilities,
platform, product, version, connection_name) cannot be overridden: the call
leaves the state unchanged. Any other key is inserted or overwritten,
including the five defaulted-but-overridable keys. -/
def RabbitContextOptions.setClientProperty (s : RabbitContextOptions) (name : String)
    (value : FieldValue) : RabbitContextOptions :=
  if name ∈ reservedProperties then s
  else { s with d_clientProperties := insertField s.d_clientProperties name value }

/-- Modelled from the spec: the body of setMessageProcessingTimeout is not in
the sources. It stores the duration wholesale. -/
def RabbitContextOptions.setMessageProcessingTimeout (s : RabbitContextOptions)
    (t : TimeInterval) : RabbitContextOptions :=
  { s with d_messageProcessingTimeout := t }

/-- Modelled from the spec: the body of setConnectionErrorThreshold is not in
the sources. It stores the optional duration wholesale; the argument may be
the explicit unset sentinel (none). -/
def RabbitContextOptions.setConnectionErrorThreshold (s : RabbitContextOptions)
    (t : Option TimeInterval) : RabbitContextOptions :=
  { s with d_connectionErrorThreshold := t }

/-- Modelled from the spec: the body of setConsumerTracing is not in the
sources. It stores the shared handle wholesale. -/
def RabbitContextOptions.setConsumerTracing (s : RabbitContextOptions)
    (c : ConsumerTracingPtr) : RabbitContextOptions :=
  { s with d_consumerTracing := c }

/-- Modelled from the spec: the body of setProducerTracing is not in the
sources. It stores the shared handle wholesale. -/
def RabbitContextOptions.setProducerTracing (s : RabbitContextOptions)
    (p : ProducerTracingPtr) : RabbitContextOptions :=
  { s with d_producerTracing := p }

/-- Modelled from the spec: the body of the deprecated
useRabbitMQFieldValueEncoding is not in the sources. Per the header doc (the
encoding is now always true) and the spec it has no observable effect. -/
def RabbitContextOptions.useRabbitMQFieldValueEncoding (s : RabbitContextOptions)
    (_rabbitEncoding : Bool) : RabbitContextOptions :=
  s

/-- Modelled from the spec: the body of setShuffleConnectionEndpoints is not
in the sources. It stores the boolean into the optional member (always a set
value: the setter takes a plain bool, not an optional). -/
def RabbitContextOptions.setShuffleConnectionEndpoints (s : RabbitContextOptions)
    (b : Bool) : RabbitContextOptions :=
  { s with d_shuffleConnectionEndpoints := some b }

/-- Modelled from the spec: the body of setTunable (experimental builds only)
is not in the sources. It adds a flag to the tunables set; additive only. -/
def RabbitContextOptions.setTunable (s : RabbitContextOptions) (t : String) :
    RabbitContextOptions :=
  if t ∈ s.d_tunables then s else { s with d_tunables := s.d_tunables ++ [t] }

/-- One mutating operation of the builder surface, for stating reachability
invariants over arbitrary call sequences. -/
inductive BuilderOp where
  | setThreadpoolOp (p : ThreadPoolPtr)
  | setMetricPublisherOp (m : MetricPublisherPtr)
  | setErrorCallbackOp (cb : ErrorCallback)
  | setSuccessCallbackOp (cb : SuccessCallback)
  | setHungMessageCallbackOp (cb : HungMessageCallback)
  | setClientPropertyOp (name : String) (value : FieldValue)
  | setMessageProcessingTimeoutOp (t : TimeInterval)
  | setConnectionErrorThresholdOp (t : Option TimeInterval)
  | setConsumerTracingOp (c : ConsumerTracingPtr)
  | setProducerTracingOp (p : ProducerTracingPtr)
  | useRabbitMQFieldValueEncodingOp (b : Bool)
  | setShuffleConnectionEndpointsOp (b : Bool)
  | setTunableOp (t : String)
deriving DecidableEq, Repr

/-- Whether an operation is a setHungMessageCallback call. -/
def BuilderOp.isSetHungMessageCallbackOp : BuilderOp → Bool
  | BuilderOp.setHungMessageCallbackOp _ => true
  | _ => false

/-- State of the builder after one operation; a rejected setThreadpool call
leaves the state unchanged. -/
def applyOp (s : RabbitContextOptions) : BuilderOp → RabbitContextOptions
  | BuilderOp.setThreadpoolOp p => s.applySetThreadpool p
  | BuilderOp.setMetricPublisherOp m => s.setMetricPublisher m
  | BuilderOp.setErrorCallbackOp cb => s.setErrorCallback cb
  | BuilderOp.setSuccessCallbackOp cb => s.setSuccessCallback cb
  | BuilderOp.setHungMessageCallbackOp cb => s.setHungMessageCallback cb
  | BuilderOp.setClientPropertyOp name value => s.setClientProperty name value
  | BuilderOp.setMessageProcessingTimeoutOp t => s.setMessageProcessingTimeout t
  | BuilderOp.setConnectionErrorThresholdOp t => s.setConnectionErrorThreshold t
  | BuilderOp.setConsumerTracingOp c => s.setConsumerTracing c
  | BuilderOp.setProducerTracingOp p => s.setProducerTracing p
  | BuilderOp.useRabbitMQFieldValueEncodingOp b => s.useRabbitMQFieldValueEncoding b
  | BuilderOp.setShuffleConnectionEndpointsOp b => s.setShuffleConnectionEndpoints b
  | BuilderOp.setTunableOp t => s.setTunable t

/-- State of the builder after a sequence of operations, applied in order. -/
def applyOps (s : RabbitContextOptions) (ops : List BuilderOp) : RabbitContextOptions :=
  ops.foldl applyOp s

/-- A concrete environment used by the witness theorems. -/
def sampleEnv : EnvInfo :=
  ⟨"mytask", "1234", "Linux", "5.10", "patch1"⟩

/-- A concrete freshly constructed builder used by the witness theorems. -/
def sampleOptions : RabbitContextOptions :=
  RabbitContextOptions.init sampleEnv

/-- Looking up the inserted key returns the inserted value. -/
theorem lookupField_insertField_self (t : FieldTable) (name : String) (value : FieldValue) :
    lookupField (insertField t name value) name = some value := by
  induction t with
  | nil => simp [insertField, lookupField]
  | cons hd tl ih =>
      obtain ⟨k, v⟩ := hd
      by_cases h : k = name
      · simp [insertField, lookupField, h]
      · simp [insertField, lookupField, h, ih]

/-- Looking up a key other than the inserted one is unchanged by the insert. -/
theorem lookupField_insertField_ne (t : FieldTable) (name other : String)
    (value : FieldValue) (h : other ≠ name) :
    lookupField (insertField t name value) other = lookupField t other := by
  have hno : name ≠ other := fun hh => h hh.symm
  induction t with
  | nil => simp [insertField, lookupField, hno]
  | cons hd tl ih =>
      obtain ⟨k, v⟩ := hd
      by_cases hk : k = name
      · subst hk
        simp [insertField, lookupField, hno]
      · by_cases ho : k = other
        · simp [insertField, lookupField, hk, ho, h]
        · simp [insertField, lookupField, hk, ho, ih]

/-- No single operation clears the shuffle flag once it is set. -/
theorem applyOp_preserves_shuffle_set (s : RabbitContextOptions) (op : BuilderOp)
    (h : s.d_shuffleConnectionEndpoints.isSome = true) :
    (applyOp s op).d_shuffleConnectionEndpoints.isSome = true := by
  cases op with
  | setThreadpoolOp p =>
      cases p <;> simpa [applyOp, RabbitContextOptions.applySetThreadpool,
        RabbitContextOptions.setThreadpool] using h
  | setMetricPublisherOp m =>
      simpa [applyOp, RabbitContextOptions.setMetricPublisher] using h
  | setErrorCallbackOp cb =>
      simpa [applyOp, RabbitContextOptions.setErrorCallback] using h
  | setSuccessCallbackOp cb =>
      simpa [applyOp, RabbitContextOptions.setSuccessCallback] using h
  | setHungMessageCallbackOp cb =>
      simpa [applyOp, RabbitContextOptions.setHungMessageCallback] using h
  | setClientPropertyOp name value =>
      by_cases hr : name ∈ reservedProperties <;>
        simpa [applyOp, RabbitContextOptions.setClientProperty, hr] using h
  | setMessageProcessingTimeoutOp t =>
      simpa [applyOp, RabbitContextOptions.setMessageProcessingTimeout] using h
  | setConnectionErrorThresholdOp t =>
      simpa [applyOp, RabbitContextOptions.setConnectionErrorThreshold] using h
  | setConsumerTracingOp c =>
      simpa [applyOp, RabbitContextOptions.setConsumerTracing] using h
  | setProducerTracingOp p =>
      simpa [applyOp, RabbitContextOptions.setProducerTracing] using h
  | useRabbitMQFieldValueEncodingOp b =>
      simpa [applyOp, RabbitContextOptions.useRabbitMQFieldValueEncoding] using h
  | setShuffleConnectionEndpointsOp b =>
      simp [applyOp, RabbitContextOptions.setShuffleConnectionEndpoints]
  | setTunableOp t =>
      by_cases ht : t ∈ s.d_tunables <;>
        simpa [applyOp, RabbitContextOptions.setTunable, ht] using h

/-- Claim C1: for every builder state and every name in the reserved set,
setClientProperty leaves the whole builder state — in particular the stored
client-properties mapping — exactly as it was. -/
theorem setClientProperty_reserved_noop (s : RabbitContextOptions) (name : String)
    (v : FieldValue) (h : name ∈ reservedProperties) :
    s.setClientProperty name v = s := by
  simp [RabbitContextOptions.setClientProperty, h]

/-- Witness for C1 at the reserved key platform. -/
theorem setClientProperty_reserved_noop_witness :
    "platform" ∈ reservedProperties ∧
      sampleOptions.setClientProperty "platform" "linux" = sampleOptions :=
  ⟨by decide, setClientProperty_reserved_noop sampleOptions "platform" "linux" (by decide)⟩

/-- Claim C2: calling setThreadpool with the null pointer is rejected
synchronously at the call site with InvalidConfiguration, and the builder
state is unchanged (the failure is not deferred to connection time). -/
theorem setThreadpool_null_invalidConfiguration (s : RabbitContextOptions) :
    s.setThreadpool none = Except.error ConfigError.invalidConfiguration ∧
      s.applySetThreadpool none = s :=
  ⟨rfl, rfl⟩

/-- Claim C3: a freshly constructed builder exposes messageProcessingTimeout
of 60 seconds, unset connectionErrorThreshold, unset
shuffleConnectionEndpoints, and client properties whose keys are exactly the
five default keys; none of the five reserved keys is present. -/
theorem init_default_snapshot (env : EnvInfo) :
    (RabbitContextOptions.init env).messageProcessingTimeout = ⟨60, 0⟩ ∧
      (RabbitContextOptions.init env).connectionErrorThreshold = none ∧
      (RabbitContextOptions.init env).shuffleConnectionEndpoints = none ∧
      fieldKeys (RabbitContextOptions.init env).clientProperties = defaultPropertyKeys ∧
      lookupField (RabbitContextOptions.init env).clientProperties "capabilities" = none ∧
      lookupField (RabbitContextOptions.init env).clientProperties "platform" = none ∧
      lookupField (RabbitContextOptions.init env).clientProperties "product" = none ∧
      lookupField (RabbitContextOptions.init env).clientProperties "version" = none ∧
      lookupField (RabbitContextOptions.init env).clientProperties "connection_name" = none := by
  refine ⟨rfl, rfl, rfl, rfl, ?_, ?_, ?_, ?_, ?_⟩ <;>
    simp [RabbitContextOptions.init, RabbitContextOptions.clientProperties, lookupField]

/-- Claim C4: each setter followed by its getter returns exactly the value
set, for every builder state: for setClientProperty this holds for every
non-reserved key, and for setThreadpool for every non-null pointer. -/
theorem setter_getter_roundtrip (s : RabbitContextOptions) (p : Nat)
    (m : MetricPublisherPtr) (ec : ErrorCallback) (sc : SuccessCallback)
    (name : String) (v : FieldValue) (t : TimeInterval) (th : Option TimeInterval)
    (ct : ConsumerTracingPtr) (pt : ProducerTracingPtr) (b : Bool)
    (hname : name ∉ reservedProperties) :
    s.setThreadpool (some p) = Except.ok (s.applySetThreadpool (some p)) ∧
      (s.applySetThreadpool (some p)).threadpool = some p ∧
      (s.setMetricPublisher m).metricPublisher = m ∧
      (s.setErrorCallback ec).errorCallback = ec ∧
      (s.setSuccessCallback sc).successCallback = sc ∧
      lookupField (s.setClientProperty name v).clientProperties name = some v ∧
      (s.setMessageProcessingTimeout t).messageProcessingTimeout = t ∧
      (s.setConnectionErrorThreshold th).connectionErrorThreshold = th ∧
      (s.setConsumerTracing ct).consumerTracing = ct ∧
      (s.setProducerTracing pt).producerTracing = pt ∧
      (s.setShuffleConnectionEndpoints b).shuffleConnectionEndpoints = some b := by
  refine ⟨rfl, rfl, rfl, rfl, rfl, ?_, rfl, rfl, rfl, rfl, rfl⟩
  simp [RabbitContextOptions.setClientProperty, hname,
    RabbitContextOptions.clientProperties, lookupField_insertField_self]

/-- Witness for C4 at concrete inputs, with the non-reserved key app_id and a
non-null threadpool pointer. -/
theorem setter_getter_roundtrip_witness :
    "app_id" ∉ reservedProperties ∧
      (sampleOptions.setThreadpool (some 7) =
          Except.ok (sampleOptions.applySetThreadpool (some 7)) ∧
        (sampleOptions.applySetThreadpool (some 7)).threadpool = some 7 ∧
        (sampleOptions.setMetricPublisher (some 1)).metricPublisher = some 1 ∧
        (sampleOptions.setErrorCallback (some 2)).errorCallback = some 2 ∧
        (sampleOptions.setSuccessCallback (some 3)).successCallback = some 3 ∧
        lookupField (sampleOptions.setClientProperty "app_id" "val").clientProperties
            "app_id" = some "val" ∧
        (sampleOptions.setMessageProcessingTimeout ⟨30, 0⟩).messageProcessingTimeout =
          ⟨30, 0⟩ ∧
        (sampleOptions.setConnectionErrorThreshold (some ⟨5, 0⟩)).connectionErrorThreshold =
          some ⟨5, 0⟩ ∧
        (sampleOptions.setConsumerTracing (some 4)).consumerTracing = some 4 ∧
        (sampleOptions.setProducerTracing (some 5)).producerTracing = some 5 ∧
        (sampleOptions.setShuffleConnectionEndpoints true).shuffleConnectionEndpoints =
          some true) :=
  ⟨by decide, setter_getter_roundtrip sampleOptions 7 (some 1) (some 2) (some 3)
      "app_id" "val" ⟨30, 0⟩ (some ⟨5, 0⟩) (some 4) (some 5) true (by decide)⟩

/-- Claim C5: setting the default-but-overridable key task to a value updates
its entry and leaves the entries of pid, os, os_version and os_patch at their
prior values, for every builder state. -/
theorem setClientProperty_task_overrides (s : RabbitContextOptions) (x : FieldValue) :
    lookupField (s.setClientProperty "task" x).clientProperties "task" = some x ∧
      lookupField (s.setClientProperty "task" x).clientProperties "pid" =
        lookupField s.clientProperties "pid" ∧
      lookupField (s.setClientProperty "task" x).clientProperties "os" =
        lookupField s.clientProperties "os" ∧
      lookupField (s.setClientProperty "task" x).clientProperties "os_version" =
        lookupField s.clientProperties "os_version" ∧
      lookupField (s.setClientProperty "task" x).clientProperties "os_patch" =
        lookupField s.clientProperties "os_patch" := by
  have htask : "task" ∉ reservedProperties := by decide
  refine ⟨?_, ?_, ?_, ?_, ?_⟩ <;>
    simp [RabbitContextOptions.setClientProperty, htask,
      RabbitContextOptions.clientProperties, lookupField_insertField_self,
      lookupField_insertField_ne]

/-- Claim C6: after setting a concrete connection-error threshold, setting the
explicit unset sentinel restores the unset state, observationally equal to a
freshly constructed builder on which the setter was never called. -/
theorem setConnectionErrorThreshold_unset_restores (s : RabbitContextOptions)
    (d : TimeInterval) (env : EnvInfo) :
    ((s.setConnectionErrorThreshold (some d)).setConnectionErrorThreshold
        none).connectionErrorThreshold = none ∧
      ((s.setConnectionErrorThreshold (some d)).setConnectionErrorThreshold
          none).connectionErrorThreshold =
        (RabbitContextOptions.init env).connectionErrorThreshold :=
  ⟨rfl, rfl⟩

/-- Claim C7: after setMetricPublisher(A) then setMetricPublisher(B), the
accessor returns B only, and the resulting state is exactly the one obtained
by setting B alone: no reference to A is retained. -/
theorem setMetricPublisher_last_write_wins (s : RabbitContextOptions)
    (a b : MetricPublisherPtr) :
    ((s.setMetricPublisher a).setMetricPublisher b).metricPublisher = b ∧
      (s.setMetricPublisher a).setMetricPublisher b = s.setMetricPublisher b :=
  ⟨rfl, rfl⟩

/-- Claim C8: the deprecated useRabbitMQFieldValueEncoding call has no
observable effect for either boolean argument: the builder state, hence every
accessor, is exactly as before the call. -/
theorem useRabbitMQFieldValueEncoding_noop (s : RabbitContextOptions) (b : Bool) :
    s.useRabbitMQFieldValueEncoding b = s :=
  rfl

/-- Claim C9: once shuffleConnectionEndpoints has been set, every builder
state reachable by any sequence of operations keeps it set — no operation
returns the flag to unset; by contrast a single setConnectionErrorThreshold
call with the unset sentinel does return connectionErrorThreshold to unset. -/
theorem shuffleConnectionEndpoints_stays_set (s : RabbitContextOptions)
    (ops : List BuilderOp) (h : s.shuffleConnectionEndpoints.isSome = true) :
    (applyOps s ops).shuffleConnectionEndpoints.isSome = true ∧
      (applyOp s (BuilderOp.setConnectionErrorThresholdOp none)).connectionErrorThreshold =
        none := by
  refine ⟨?_, rfl⟩
  induction ops generalizing s with
  | nil => exact h
  | cons op rest ih => exact ih (applyOp s op) (applyOp_preserves_shuffle_set s op h)

/-- Witness for C9: a builder with the shuffle flag set keeps it set across a
concrete sequence of further operations. -/
theorem shuffleConnectionEndpoints_stays_set_witness :
    (sampleOptions.setShuffleConnectionEndpoints true).shuffleConnectionEndpoints.isSome =
        true ∧
      ((applyOps (sampleOptions.setShuffleConnectionEndpoints true)
            [BuilderOp.setConnectionErrorThresholdOp none,
             BuilderOp.setErrorCallbackOp (some 1),
             BuilderOp.setClientPropertyOp "app_id" "val"]).shuffleConnectionEndpoints.isSome =
          true ∧
        (applyOp (sampleOptions.setShuffleConnectionEndpoints true)
            (BuilderOp.setConnectionErrorThresholdOp none)).connectionErrorThreshold =
          none) :=
  ⟨rfl, shuffleConnectionEndpoints_stays_set
      (sampleOptions.setShuffleConnectionEndpoints true)
      [BuilderOp.setConnectionErrorThresholdOp none,
       BuilderOp.setErrorCallbackOp (some 1),
       BuilderOp.setClientPropertyOp "app_id" "val"] rfl⟩

/-- Claim C10: setHungMessageCallback stores the callback in the public data
member d_onHungMessage (which has no const accessor in the source), and every
operation other than setHungMessageCallback leaves d_onHungMessage unchanged. -/
theorem hungMessageCallback_set_and_framed (s : RabbitContextOptions)
    (cb : HungMessageCallback) (op : BuilderOp)
    (h : op.isSetHungMessageCallbackOp = false) :
    (s.setHungMessageCallback cb).d_onHungMessage = cb ∧
      (applyOp s op).d_onHungMessage = s.d_onHungMessage := by
  refine ⟨rfl, ?_⟩
  cases op with
  | setThreadpoolOp p => cases p <;> rfl
  | setMetricPublisherOp m => rfl
  | setErrorCallbackOp cb2 => rfl
  | setSuccessCallbackOp cb2 => rfl
  | setHungMessageCallbackOp cb2 => simp [BuilderOp.isSetHungMessageCallbackOp] at h
  | setClientPropertyOp name value =>
      by_cases hr : name ∈ reservedProperties <;>
        simp [applyOp, RabbitContextOptions.setClientProperty, hr]
  | setMessageProcessingTimeoutOp t => rfl
  | setConnectionErrorThresholdOp t => rfl
  | setConsumerTracingOp c => rfl
  | setProducerTracingOp p => rfl
  | useRabbitMQFieldValueEncodingOp b => rfl
  | setShuffleConnectionEndpointsOp b => rfl
  | setTunableOp t =>
      by_cases ht : t ∈ s.d_tunables <;>
        simp [applyOp, RabbitContextOptions.setTunable, ht]

/-- Witness for C10: setting the hung-message callback stores it, and a
concrete other operation (setErrorCallback) leaves it unchanged. -/
theorem hungMessageCallback_set_and_framed_witness :
    (BuilderOp.setErrorCallbackOp (some 9)).isSetHungMessageCallbackOp = false ∧
      ((sampleOptions.setHungMessageCallback (some 8)).d_onHungMessage = some 8 ∧
        (applyOp sampleOptions (BuilderOp.setErrorCallbackOp (some 9))).d_onHungMessage =
          sampleOptions.d_onHungMessage) :=
  ⟨rfl, hungMessageCallback_set_and_framed sampleOptions (some 8)
      (BuilderOp.setErrorCallbackOp (some 9)) rfl⟩

end rmqa
